import Mathlib

/-!
# Verification of the iftpfm2 transfer engine against its specification

This file gives a shallow embedding of the parts of the iftpfm2 source that
the specification's claims talk about:

* `src/config.rs` — the `Config` record, `Config::validate` and `parse_config`;
* `src/ftp_ops.rs` — the per-file pipeline of `transfer_files`
  (`check_file_should_transfer`, the RAM/disk staging decision, upload,
  upload verification, the rename commit protocol with its fallback,
  `verify_final_file`, `handle_successful_rename`, and the per-rule loop);
* `src/logging.rs` — `log_with_thread` in file mode;
* `src/shutdown.rs` — the shutdown flag state machine.

External effects (the FTP/FTPS/SFTP client operations, the filesystem,
`serde_json`, `Regex::new`) are modelled as explicit outcome records or
function parameters: each per-file environment records what every remote
operation would return, and the embedded code decides — exactly as the Rust
does — which operations are performed, in which order, and what is counted.
Performed operations are recorded in an event trace so that ordering
properties ("the source is deleted only after both verifications") are
provable statements about the embedding.
-/

-- Decidable equality on results, so that concrete runs of the embedded
-- validators can be checked by evaluation.
deriving instance DecidableEq for Except

namespace Iftpfm2

/-- Emptiness of a string (`String::is_empty` in the source). Implemented
over the character list so that concrete runs reduce by evaluation. -/
def strIsEmpty (s : String) : Bool :=
  s.data.isEmpty

/-- Character membership in a string (`str::contains(char)` in the
source). Implemented over the character list. -/
def strContains (s : String) (ch : Char) : Bool :=
  s.data.contains ch

/-- ASCII whitespace test used by the model of `str::trim`. -/
def isSpaceChar (ch : Char) : Bool :=
  decide (ch = ' ') || decide (ch = '\t') || decide (ch = '\n')
    || decide (ch = '\r')

/-- Model of `str::trim`: drop leading and trailing whitespace. -/
def strTrim (s : String) : String :=
  String.mk (((s.data.dropWhile isSpaceChar).reverse.dropWhile
    isSpaceChar).reverse)

/-- Model of `str::starts_with` on a one-character pattern. -/
def strStartsWith (s p : String) : Bool :=
  p.data.isPrefixOf s.data

/-- Protocol tag, from `src/config.rs` (`enum Protocol`). -/
inductive Protocol where
  | Ftp
  | Ftps
  | Sftp
deriving DecidableEq, Repr

/-- One transfer rule, from `src/config.rs` (`struct Config`).
Passwords and passphrases (`Secret<String>` in the source) are modelled as
plain optional strings; ports (`u16`) as `Nat`. -/
structure Config where
  ip_address_from : String
  port_from : Nat
  login_from : String
  password_from : Option String
  keyfile_from : Option String
  keyfile_pass_from : Option String
  path_from : String
  proto_from : Protocol
  ip_address_to : String
  port_to : Nat
  login_to : String
  password_to : Option String
  keyfile_to : Option String
  keyfile_pass_to : Option String
  path_to : String
  proto_to : Protocol
  age : Nat
  filename_regexp : String
deriving DecidableEq, Repr

/-- Models `opt.as_ref().map_or(false, |s| !s.is_empty())` — the source's
test for "a non-empty value is present", used for passwords, keyfiles and
passphrases in `Config::validate`. -/
def hasNonEmpty (o : Option String) : Bool :=
  match o with
  | some s => !(strIsEmpty s)
  | none => false

/-- Final segment of `Config::validate`: path and regex checks
(`src/config.rs:254-279`). `rcompile` models `Regex::new` succeeding. -/
def Config.validateTail (rcompile : String → Bool) (c : Config) :
    Except String Unit :=
  if strIsEmpty c.path_from then .error "path_from cannot be empty"
  else if strIsEmpty c.path_to then .error "path_to cannot be empty"
  else if !(rcompile c.filename_regexp) then
    .error "Invalid filename_regexp pattern"
  else .ok ()

/-- One side's authentication block of `Config::validate`
(`src/config.rs:164-251`): the source performs the same sequence of checks
for the source side and the destination side, differing only in the error
messages, which are passed in here. `fexists` models
`Path::new(k).exists()`. -/
def credAuthCheck (fexists : String → Bool) (proto : Protocol)
    (pwd keyfile passphrase : Option String)
    (eRequired eMutex ePassReq eNotExist ePwdRequired : String) :
    Except String Unit :=
  let has_password := hasNonEmpty pwd
  let has_keyfile := hasNonEmpty keyfile
  let has_keyfile_pass := hasNonEmpty passphrase
  if proto = Protocol.Sftp then
    if !has_password && !has_keyfile then .error eRequired
    else if has_password && has_keyfile then .error eMutex
    else if has_keyfile_pass && !has_keyfile then .error ePassReq
    else if has_keyfile && !(fexists (keyfile.getD "")) then .error eNotExist
    else .ok ()
  else
    if !has_password then .error ePwdRequired
    else .ok ()

/-- Model of `Config::validate` from `src/config.rs:107-280`.

`rcompile` models `Regex::new` succeeding on a pattern; `fexists` models
`Path::new(k).exists()`. Checks are performed in source order and the first
failing check produces the source's error message. -/
def Config.validate (rcompile : String → Bool) (fexists : String → Bool)
    (c : Config) : Except String Unit :=
  if strIsEmpty c.ip_address_from then .error "host_from cannot be empty"
  else if strIsEmpty c.ip_address_to then .error "host_to cannot be empty"
  else if strContains c.ip_address_from '/' || strContains c.ip_address_from '\\'
      || strContains c.ip_address_from ' ' then
    .error "host_from contains invalid characters"
  else if strContains c.ip_address_to '/' || strContains c.ip_address_to '\\'
      || strContains c.ip_address_to ' ' then
    .error "host_to contains invalid characters"
  else if c.port_from = 0 then .error "port_from cannot be 0"
  else if c.port_to = 0 then .error "port_to cannot be 0"
  else if strIsEmpty c.login_from then .error "login_from cannot be empty"
  else if strIsEmpty c.login_to then .error "login_to cannot be empty"
  else
    match credAuthCheck fexists c.proto_from c.password_from c.keyfile_from
      c.keyfile_pass_from
      "from_auth: password_from or keyfile_from is required for SFTP"
      "from_auth: password_from and keyfile_from are mutually exclusive"
      "from_auth: keyfile_pass_from requires keyfile_from"
      "from_auth: keyfile_from does not exist"
      "password_from is required for FTP/FTPS" with
    | .error e => .error e
    | .ok _ =>
      match credAuthCheck fexists c.proto_to c.password_to c.keyfile_to
        c.keyfile_pass_to
        "to_auth: password_to or keyfile_to is required for SFTP"
        "to_auth: password_to and keyfile_to are mutually exclusive"
        "to_auth: keyfile_pass_to requires keyfile_to"
        "to_auth: keyfile_to does not exist"
        "password_to is required for FTP/FTPS" with
      | .error e => .error e
      | .ok _ => Config.validateTail rcompile c

/-- Default RAM threshold, `src/ftp_ops.rs:13`:
`const DEFAULT_RAM_THRESHOLD: u64 = 10 * 1024 * 1024`. -/
def DEFAULT_RAM_THRESHOLD : Nat := 10 * 1024 * 1024

/-- The staging decision of `transfer_files`, `src/ftp_ops.rs:479-488`:
`ram_threshold.unwrap_or(DEFAULT_RAM_THRESHOLD)`; threshold `0` forces RAM;
otherwise RAM iff `file_size <= threshold`. -/
def use_ram (ram_threshold : Option Nat) (file_size : Nat) : Bool :=
  let actual_threshold := ram_threshold.getD DEFAULT_RAM_THRESHOLD
  if actual_threshold = 0 then
    true
  else
    decide (file_size ≤ actual_threshold)

/-- Events recording the remote operations performed by the per-file
pipeline of `transfer_files` (`src/ftp_ops.rs:459-712`), in the order the
source performs them. Temporary and final destination names are implicit:
the pipeline only ever touches the one file's temp name
(`.{original}.{pid}.tmp`) and final name, so the constructors distinguish
them instead of carrying strings. -/
inductive Ev where
  /-- storage decision logged at `Using RAM/disk buffer for ...` (ftp_ops.rs:490-498). -/
  | storage (useRam : Bool)
  /-- successful `retr` of the source file into the staging buffer. -/
  | retrOk (staged : Nat)
  /-- failed `retr` (includes scratch-file creation failures inside the closure). -/
  | retrErr
  /-- result of `put_file` of the buffer to the temporary name. -/
  | putOk (bytesWritten : Nat)
  /-- failed `put_file`. -/
  | putErr
  /-- the `WARNING: Size mismatch!` log line at ftp_ops.rs:560-565. -/
  | warnPutMismatch
  /-- `size(temp)` query for upload verification (ftp_ops.rs:575). -/
  | sizeTemp (result : Option Nat)
  /-- first `rename(temp, original)` attempt (ftp_ops.rs:607-608). -/
  | renameAttempt (ok : Bool)
  /-- `rm(original)` in the fallback path (ftp_ops.rs:646). -/
  | rmOriginal (ok : Bool)
  /-- second `rename(temp, original)` in the fallback path (ftp_ops.rs:653). -/
  | renameRetry (ok : Bool)
  /-- `size(original)` query in `verify_final_file` (ftp_ops.rs:231). -/
  | sizeFinal (result : Option Nat)
  /-- `rm` of the temporary name on the destination. -/
  | rmTemp
  /-- `rm` of the source file (`ftp_from.rm`, ftp_ops.rs:281). -/
  | rmSource (ok : Bool)
deriving DecidableEq, Repr

/-- True exactly on `Ev.rmSource` events. -/
def Ev.isRmSource : Ev → Bool
  | .rmSource _ => true
  | _ => false

/-- Outcomes of the remote operations the per-file pipeline may perform.
Each field records what the corresponding client call would return if the
pipeline reaches it; the pipeline itself decides which calls happen. -/
structure FileOutcome where
  /-- result of `retr`: `some n` = staging succeeded with a buffer of `n`
  bytes (`buffer.size()`), `none` = transfer error. -/
  retrResult : Option Nat
  /-- result of `put_file`: `some b` = `b` bytes written, `none` = error. -/
  putResult : Option Nat
  /-- result of `size(temp)`: `some n` or `none` for an error. -/
  sizeTempResult : Option Nat
  /-- whether the first `rename(temp, original)` succeeds. -/
  rename1Ok : Bool
  /-- whether `rm(original)` in the fallback succeeds. -/
  rmOriginalOk : Bool
  /-- whether the second `rename(temp, original)` succeeds. -/
  rename2Ok : Bool
  /-- result of `size(original)` in `verify_final_file`. -/
  sizeFinalResult : Option Nat
  /-- whether `rm` of the source file succeeds. -/
  rmSourceOk : Bool
deriving DecidableEq, Repr

/-- Model of `verify_final_file` (`src/ftp_ops.rs:225-258`): queries
`size(original)` and compares with the staged byte count. Returns the
verification verdict and the trace of the query. -/
def verify_final_file (sizeFinalResult : Option Nat) (file_size : Nat) :
    Bool × List Ev :=
  match sizeFinalResult with
  | some actual => (actual == file_size, [Ev.sizeFinal (some actual)])
  | none => (false, [Ev.sizeFinal none])

/-- Model of `handle_successful_rename` (`src/ftp_ops.rs:263-300`): verify
the final file, and only when verification passed and `delete` is set,
`rm` the source file (an `rm` failure is logged but the transfer still
counts as successful). -/
def handle_successful_rename (env : FileOutcome) (file_size : Nat)
    (delete : Bool) : Bool × List Ev :=
  let v := verify_final_file env.sizeFinalResult file_size
  if v.fst then
    if delete then
      (true, v.snd ++ [Ev.rmSource env.rmSourceOk])
    else
      (true, v.snd)
  else
    (false, v.snd)

/-- Model of the per-file body of the `transfer_files` loop after the
eligibility check (`src/ftp_ops.rs:490-711`): staging decision, `retr`,
`put_file` to the temporary name, the `put_file` byte-count sanity warning,
mandatory upload verification by `size(temp)`, the rename commit protocol
with its `rm(original)` fallback, final verification and the optional
source delete. Returns whether the file is counted in
`successful_transfers`, together with the event trace.

Note the source-level shadowing at ftp_ops.rs:540: after `retr`, the local
`file_size` is rebound to `buffer.size()` (the staged byte count), so every
later size comparison uses the staged count, not the size reported earlier
by the source's `SIZE` command. -/
def processFile (delete : Bool) (useRam : Bool) (env : FileOutcome) :
    Bool × List Ev :=
  match env.retrResult with
  | none => (false, [Ev.storage useRam, Ev.retrErr])
  | some staged =>
    match env.putResult with
    | none => (false, [Ev.storage useRam, Ev.retrOk staged, Ev.putErr, Ev.rmTemp])
    | some bytesWritten =>
      let warnTr : List Ev :=
        if bytesWritten ≠ staged then [Ev.warnPutMismatch] else []
      let base : List Ev :=
        [Ev.storage useRam, Ev.retrOk staged, Ev.putOk bytesWritten] ++ warnTr
          ++ [Ev.sizeTemp env.sizeTempResult]
      let uploadVerified :=
        match env.sizeTempResult with
        | some actual => actual == staged
        | none => false
      if uploadVerified then
        if env.rename1Ok then
          let hs := handle_successful_rename env staged delete
          (hs.fst, base ++ [Ev.renameAttempt true] ++ hs.snd)
        else
          if env.rename2Ok then
            let hs := handle_successful_rename env staged delete
            (hs.fst,
              base ++ [Ev.renameAttempt false, Ev.rmOriginal env.rmOriginalOk,
                Ev.renameRetry true] ++ hs.snd)
          else
            (false,
              base ++ [Ev.renameAttempt false, Ev.rmOriginal env.rmOriginalOk,
                Ev.renameRetry false, Ev.rmTemp])
      else
        (false, base ++ [Ev.rmTemp])

/-- Per-file metadata as observed by `check_file_should_transfer`
(`src/ftp_ops.rs:81-175`): the regex verdict, the `mdtm` result (seconds
and sub-second nanoseconds of the reported modification time, `none` for
an error), the current wall-clock time in nanoseconds since the epoch, and
the `size` result. -/
structure FileMeta where
  regexMatches : Bool
  mdtmSecs : Option Int
  mdtmNanos : Nat
  nowNanos : Nat
  sizeResult : Option Nat
deriving DecidableEq, Repr

/-- Model of `check_file_should_transfer` (`src/ftp_ops.rs:81-175`):
skip (return `none`) when the regex does not match, `mdtm` fails, the
modification time is pre-epoch or in the future, the file is younger than
`min_age_seconds`, or `size` fails; otherwise return the reported size. -/
def check_file_should_transfer (min_age_seconds : Nat) (m : FileMeta) :
    Option Nat :=
  if !m.regexMatches then none
  else
    match m.mdtmSecs with
    | none => none
    | some secs =>
      if secs < 0 then none
      else
        let mtimeNanos := secs.toNat * 1000000000 + m.mdtmNanos
        if m.nowNanos < mtimeNanos then none
        else
          let file_age_seconds := (m.nowNanos - mtimeNanos) / 1000000000
          if file_age_seconds < min_age_seconds then none
          else m.sizeResult

/-- One filename of the source listing together with everything the
environment decides about it: the shutdown flag as read at the top of the
loop iteration, the metadata consulted by the eligibility check, and the
outcomes of the per-file transfer operations. -/
structure FileCase where
  shutdownAtLoopHead : Bool
  meta : FileMeta
  outcome : FileOutcome
deriving DecidableEq, Repr

/-- Model of the `for filename in file_list` loop of `transfer_files`
(`src/ftp_ops.rs:459-712`): break on shutdown, skip ineligible files, and
add 1 to `successful_transfers` (an `i32`, hence `Int`) exactly when the
per-file pipeline reports success. -/
def transferLoop (delete : Bool) (min_age_seconds : Nat)
    (ram_threshold : Option Nat) : List FileCase → Int
  | [] => 0
  | f :: rest =>
    if f.shutdownAtLoopHead then 0
    else
      match check_file_should_transfer min_age_seconds f.meta with
      | none => transferLoop delete min_age_seconds ram_threshold rest
      | some file_size =>
        (if (processFile delete (use_ram ram_threshold file_size) f.outcome).fst
          then (1 : Int) else 0)
          + transferLoop delete min_age_seconds ram_threshold rest

/-- Session-level environment of one `transfer_files` call: the shutdown
flag at entry, the connect/login/cwd outcomes for both sides, the binary
transfer-type outcomes, and the `nlst` result. -/
structure SessionEnv where
  shutdownAtEntry : Bool
  connectFromOk : Bool
  connectToOk : Bool
  binaryFromOk : Bool
  binaryToOk : Bool
  nlstResult : Option (List FileCase)
deriving Repr

/-- Model of `transfer_files` (`src/ftp_ops.rs:328-734`): every
session-setup failure (shutdown at entry, source or target connect, binary
mode on either side, listing) returns 0; otherwise the per-file loop runs
over the listing. -/
def transfer_files (delete : Bool) (min_age_seconds : Nat)
    (ram_threshold : Option Nat) (env : SessionEnv) : Int :=
  if env.shutdownAtEntry then 0
  else if !env.connectFromOk then 0
  else if !env.connectToOk then 0
  else if !env.binaryFromOk then 0
  else if !env.binaryToOk then 0
  else
    match env.nlstResult with
    | none => 0
    | some file_list => transferLoop delete min_age_seconds ram_threshold file_list

/-- Environment of one `log_with_thread` call (`src/logging.rs:93-156`):
the global `LOG_FILE` path, whether `LOG_FILE_HANDLE` already holds a
cached writer, and what opening the file (when needed) and writing the
record would return. -/
structure LogEnv where
  logFile : Option String
  handleCached : Bool
  openOk : Bool
  writeOk : Bool
deriving DecidableEq, Repr

/-- Observable outcome of one `log_with_thread` call: the `io::Result`
returned to the caller and whether the failure fallback wrote the record
to standard error. -/
structure LogResult where
  returned : Except Unit Unit
  stderrReported : Bool
deriving Repr

/-- Model of `log_with_thread` (`src/logging.rs:93-156`). With no log file
set the record goes to standard output and the call returns `Ok`. With a
log file set: if no writer is cached, the file is opened with
`OpenOptions::open(..)?` — the `?` propagates an open failure as `Err`
(logging.rs:129-132); a write/flush failure on the (now cached) writer is
reported to standard error and the call still returns `Ok`
(logging.rs:143-147, 155). -/
def log_with_thread (env : LogEnv) : LogResult :=
  match env.logFile with
  | none => { returned := .ok (), stderrReported := false }
  | some _ =>
    if env.handleCached then
      if env.writeOk then { returned := .ok (), stderrReported := false }
      else { returned := .ok (), stderrReported := true }
    else if env.openOk then
      if env.writeOk then { returned := .ok (), stderrReported := false }
      else { returned := .ok (), stderrReported := true }
    else
      { returned := .error (), stderrReported := false }

/-- State of the shutdown module (`src/shutdown.rs`): the
`SHUTDOWN_REQUESTED` atomic bool and the `SIGNAL_TYPE` atomic u8
(0 = none, 1 = SIGINT, 2 = SIGTERM). -/
structure ShutdownState where
  shutdownRequested : Bool
  signalType : Nat
deriving DecidableEq, Repr

/-- The mutating operations the shutdown module exposes outside of tests
(`request_shutdown`, `request_shutdown_with_signal`); the reads
`is_shutdown_requested` and `get_signal_type` do not change the state.
The test-only `reset_shutdown_for_tests` is `#[cfg(test)]` and excluded. -/
inductive ShutdownOp where
  | requestShutdown
  | requestShutdownWithSignal (k : Nat)
deriving DecidableEq, Repr

/-- Effect of one shutdown operation (`src/shutdown.rs:30-44`):
`request_shutdown` stores `true`; `request_shutdown_with_signal(k)` stores
`k` into `SIGNAL_TYPE` and then `true` into `SHUTDOWN_REQUESTED`. -/
def ShutdownState.apply (s : ShutdownState) : ShutdownOp → ShutdownState
  | .requestShutdown => { s with shutdownRequested := true }
  | .requestShutdownWithSignal k => { shutdownRequested := true, signalType := k }

/-- Run a sequence of shutdown operations left to right. -/
def ShutdownState.run (s : ShutdownState) : List ShutdownOp → ShutdownState
  | [] => s
  | op :: ops => (s.apply op).run ops

/-- Model of `is_shutdown_requested` (`src/shutdown.rs:22-24`). -/
def is_shutdown_requested (s : ShutdownState) : Bool :=
  s.shutdownRequested

/-- Model of `get_signal_type` (`src/shutdown.rs:52-59`): `None` when the
stored value is 0, otherwise `Some` of it. -/
def get_signal_type (s : ShutdownState) : Option Nat :=
  if s.signalType = 0 then none else some s.signalType

/-- Model of `parse_config` (`src/config.rs:306-348`) over the list of
lines of the configuration file. `parseLine` models
`serde_json::from_str::<Config>`; `rcompile` and `fexists` are as in
`Config.validate`. Each line is trimmed; empty lines and `#` comments are
skipped; any JSON, regex or validation failure aborts the whole parse. -/
def parse_config (rcompile : String → Bool) (fexists : String → Bool)
    (parseLine : String → Except String Config) :
    List String → Except String (List Config)
  | [] => .ok []
  | line :: rest =>
    let t := strTrim line
    if strIsEmpty t || strStartsWith t "#" then
      parse_config rcompile fexists parseLine rest
    else
      match parseLine t with
      | .error e => .error e
      | .ok config =>
        if !(rcompile config.filename_regexp) then
          .error "invalid filename regex pattern"
        else
          match config.validate rcompile fexists with
          | .error e => .error e
          | .ok _ =>
            match parse_config rcompile fexists parseLine rest with
            | .error e => .error e
            | .ok configs => .ok (config :: configs)

/-- The panic condition of the `Regex::new(..).expect(..)` call at
`src/ftp_ops.rs:454-456`: `transfer_files` panics exactly when the rule's
`filename_regexp` fails to compile. -/
def regexCompileFails (rcompile : String → Bool) (config : Config) : Bool :=
  !(rcompile config.filename_regexp)

/-! ## Theorems -/

/-- C4: for every eligible file of reported size `S` and every effective RAM
threshold `R` (the `--ram-threshold` value, defaulting to 10485760 bytes when
unset), `transfer_files` stages the bytes in a memory buffer if and only if
`R = 0` or `S ≤ R`, and in an on-disk scratch file otherwise. -/
theorem c4_staging_memory_iff (R : Option Nat) (S : Nat) :
    DEFAULT_RAM_THRESHOLD = 10485760 ∧
    (use_ram R S = true ↔
      (R.getD DEFAULT_RAM_THRESHOLD = 0 ∨ S ≤ R.getD DEFAULT_RAM_THRESHOLD)) ∧
    (use_ram R S = false ↔
      ¬(R.getD DEFAULT_RAM_THRESHOLD = 0 ∨ S ≤ R.getD DEFAULT_RAM_THRESHOLD)) := by
  refine ⟨by norm_num [DEFAULT_RAM_THRESHOLD], ?_, ?_⟩ <;>
    · simp only [use_ram]
      split <;> simp_all

/-- C9: the shutdown state is monotone: apart from the test-only reset, no
operation of the shutdown module clears `SHUTDOWN_REQUESTED`, so once
`is_shutdown_requested` returns true it returns true after any further
sequence of operations; and immediately after
`request_shutdown_with_signal(k)` with `k ∈ {1, 2}`, `get_signal_type`
returns `some k`. -/
theorem c9_shutdown_monotone (s : ShutdownState) (ops : List ShutdownOp)
    (k : Nat) (hreq : is_shutdown_requested s = true) (hk : k = 1 ∨ k = 2) :
    is_shutdown_requested (s.run ops) = true ∧
    get_signal_type (s.apply (.requestShutdownWithSignal k)) = some k := by
  constructor
  · induction ops generalizing s with
    | nil => exact hreq
    | cons op rest ih =>
      cases op <;>
        exact ih _ (by simp [is_shutdown_requested, ShutdownState.apply])
  · have hk0 : k ≠ 0 := by omega
    simp [get_signal_type, ShutdownState.apply, hk0]

/-- Witness for C9 at a concrete state, operation list and signal. -/
theorem c9_shutdown_monotone_witness :
    is_shutdown_requested
      (ShutdownState.run ⟨true, 0⟩
        [ShutdownOp.requestShutdown, ShutdownOp.requestShutdownWithSignal 2]) = true ∧
    get_signal_type
      (ShutdownState.apply ⟨true, 0⟩ (.requestShutdownWithSignal 1)) = some 1 :=
  c9_shutdown_monotone ⟨true, 0⟩
    [ShutdownOp.requestShutdown, ShutdownOp.requestShutdownWithSignal 2] 1
    rfl (Or.inl rfl)

/-- C8 counterexample: with a log file set but no cached handle, a failing
open propagates through the `?` operator at `src/logging.rs:129-132`, so
`log_with_thread` returns `Err` — refuting "log_with_thread returns Ok for
every input message once a log file is set". -/
theorem c8_counterexample :
    (log_with_thread
      { logFile := some "app.log", handleCached := false,
        openOk := false, writeOk := true }).returned ≠ Except.ok () := by
  simp [log_with_thread]

/-- C8 (amended): once a log file is set, whenever the writer is already
cached or the file opens successfully, `log_with_thread` returns `Ok`, and a
write failure is reported to standard error instead of being raised; the
call returns `Err` exactly when no writer is cached and opening the log file
fails. -/
theorem c8_log_file_mode (env : LogEnv) (p : String)
    (hset : env.logFile = some p) :
    ((env.handleCached || env.openOk) = true →
      (log_with_thread env).returned = .ok ()) ∧
    ((env.handleCached || env.openOk) = true ∧ env.writeOk = false →
      (log_with_thread env).stderrReported = true) ∧
    ((log_with_thread env).returned = .error () ↔
      env.handleCached = false ∧ env.openOk = false) := by
  rcases env with ⟨lf, hc, oo, wo⟩
  simp only at hset
  subst hset
  cases hc <;> cases oo <;> cases wo <;>
    simp [log_with_thread]

/-- Witness for C8 (amended): cached handle, failing write — the call
returns `Ok` and reports to standard error. -/
theorem c8_log_file_mode_witness :
    (log_with_thread
      { logFile := some "app.log", handleCached := true,
        openOk := true, writeOk := false }).returned = .ok () ∧
    (log_with_thread
      { logFile := some "app.log", handleCached := true,
        openOk := true, writeOk := false }).stderrReported = true :=
  ⟨(c8_log_file_mode
      { logFile := some "app.log", handleCached := true,
        openOk := true, writeOk := false } "app.log" rfl).1 (by decide),
   (c8_log_file_mode
      { logFile := some "app.log", handleCached := true,
        openOk := true, writeOk := false } "app.log" rfl).2.1 ⟨by decide, rfl⟩⟩

/-- Helper for C5: the per-rule loop counts at least 0 and at most one
success per listed file. -/
theorem transferLoop_bounds (delete : Bool) (minAge : Nat) (rt : Option Nat)
    (files : List FileCase) :
    0 ≤ transferLoop delete minAge rt files ∧
    transferLoop delete minAge rt files ≤ files.length := by
  induction files with
  | nil => simp [transferLoop]
  | cons f rest ih =>
    simp only [transferLoop, List.length_cons]
    split
    · constructor
      · exact le_refl 0
      · push_cast
        omega
    · split
      · push_cast at ih ⊢
        omega
      · split <;> (push_cast at ih ⊢; omega)

/-- C5: for every run of `transfer_files`, the returned count of successful
transfers is non-negative and at most the number of filenames returned by
the source directory listing (`nlst`), regardless of skips, per-file errors,
or early termination by shutdown. -/
theorem c5_success_count_bounded (delete : Bool) (minAge : Nat)
    (rt : Option Nat) (env : SessionEnv) (files : List FileCase)
    (hnlst : env.nlstResult = some files) :
    0 ≤ transfer_files delete minAge rt env ∧
    transfer_files delete minAge rt env ≤ files.length := by
  have hb := transferLoop_bounds delete minAge rt files
  have hlen : (0 : Int) ≤ files.length := by positivity
  unfold transfer_files
  rw [hnlst]
  split
  · exact ⟨le_refl 0, hlen⟩
  · split
    · exact ⟨le_refl 0, hlen⟩
    · split
      · exact ⟨le_refl 0, hlen⟩
      · split
        · exact ⟨le_refl 0, hlen⟩
        · split
          · exact ⟨le_refl 0, hlen⟩
          · exact hb

/-- Witness for C5 at a concrete session environment with a two-file
listing whose second iteration observes the shutdown flag. -/
theorem c5_success_count_bounded_witness :
    0 ≤ transfer_files false 0 none
      ⟨false, true, true, true, true,
        some [⟨false, ⟨true, some 0, 0, 1000000000000, some 5⟩,
                ⟨some 5, some 5, some 5, true, true, true, some 5, true⟩⟩,
              ⟨true, ⟨true, some 0, 0, 1000000000000, some 5⟩,
                ⟨some 5, some 5, some 5, true, true, true, some 5, true⟩⟩]⟩ ∧
    transfer_files false 0 none
      ⟨false, true, true, true, true,
        some [⟨false, ⟨true, some 0, 0, 1000000000000, some 5⟩,
                ⟨some 5, some 5, some 5, true, true, true, some 5, true⟩⟩,
              ⟨true, ⟨true, some 0, 0, 1000000000000, some 5⟩,
                ⟨some 5, some 5, some 5, true, true, true, some 5, true⟩⟩]⟩ ≤
      ([⟨false, ⟨true, some 0, 0, 1000000000000, some 5⟩,
          ⟨some 5, some 5, some 5, true, true, true, some 5, true⟩⟩,
        ⟨true, ⟨true, some 0, 0, 1000000000000, some 5⟩,
          ⟨some 5, some 5, some 5, true, true, true, some 5, true⟩⟩] :
        List FileCase).length :=
  c5_success_count_bounded false 0 none
    ⟨false, true, true, true, true,
      some [⟨false, ⟨true, some 0, 0, 1000000000000, some 5⟩,
              ⟨some 5, some 5, some 5, true, true, true, some 5, true⟩⟩,
            ⟨true, ⟨true, some 0, 0, 1000000000000, some 5⟩,
              ⟨some 5, some 5, some 5, true, true, true, some 5, true⟩⟩]⟩
    [⟨false, ⟨true, some 0, 0, 1000000000000, some 5⟩,
       ⟨some 5, some 5, some 5, true, true, true, some 5, true⟩⟩,
     ⟨true, ⟨true, some 0, 0, 1000000000000, some 5⟩,
       ⟨some 5, some 5, some 5, true, true, true, some 5, true⟩⟩] rfl

/-- C1: with the delete-on-success flag set, the source file is deleted
(`rm` on the source session) only after both the post-upload size
verification of the temporary name and the post-rename size verification of
the final name have succeeded; if any verification step fails or errors, the
source delete is never reached. Formally: whenever an `rmSource` event is in
the per-file trace, the delete flag was set, both `size` queries returned
exactly the staged byte count, and both successful queries occur strictly
before the `rmSource` event (they are in the prefix of the trace preceding
any `rmSource`). -/
theorem c1_source_delete_after_verification (delete useRam : Bool)
    (env : FileOutcome) (ok : Bool)
    (h : Ev.rmSource ok ∈ (processFile delete useRam env).snd) :
    delete = true ∧
    ∃ staged, env.retrResult = some staged ∧
      env.sizeTempResult = some staged ∧
      env.sizeFinalResult = some staged ∧
      Ev.sizeTemp (some staged) ∈
        ((processFile delete useRam env).snd.takeWhile (fun e => !e.isRmSource)) ∧
      Ev.sizeFinal (some staged) ∈
        ((processFile delete useRam env).snd.takeWhile (fun e => !e.isRmSource)) := by
  obtain ⟨retrR, putR, stR, r1, rmO, r2, sfR, rmS⟩ := env
  cases retrR with
  | none => simp [processFile] at h
  | some staged =>
    cases putR with
    | none => simp [processFile] at h
    | some b =>
      cases stR with
      | none =>
        by_cases hw : b = staged <;> simp [processFile, hw] at h
      | some actual =>
        by_cases hva : actual = staged
        · subst hva
          by_cases hw : b = actual <;>
            cases r1 <;> cases r2 <;>
            · cases sfR with
              | none =>
                simp [processFile, hw, handle_successful_rename,
                  verify_final_file] at h
              | some fA =>
                by_cases hfa : fA = actual
                · subst hfa
                  cases delete <;>
                    simp_all [processFile, hw, handle_successful_rename,
                      verify_final_file, Ev.isRmSource, List.takeWhile]
                · simp [processFile, hw, handle_successful_rename,
                    verify_final_file, hfa] at h
        · by_cases hw : b = staged <;>
            simp [processFile, hva, hw] at h

/-- Witness for C1 at a concrete fully-successful delete-mode run. -/
theorem c1_source_delete_after_verification_witness :
    true = true ∧
    ∃ staged,
      (FileOutcome.mk (some 7) (some 7) (some 7) true true true (some 7) true).retrResult
        = some staged ∧
      (FileOutcome.mk (some 7) (some 7) (some 7) true true true (some 7) true).sizeTempResult
        = some staged ∧
      (FileOutcome.mk (some 7) (some 7) (some 7) true true true (some 7) true).sizeFinalResult
        = some staged ∧
      Ev.sizeTemp (some staged) ∈
        ((processFile true false
          (FileOutcome.mk (some 7) (some 7) (some 7) true true true (some 7) true)).snd.takeWhile
            (fun e => !e.isRmSource)) ∧
      Ev.sizeFinal (some staged) ∈
        ((processFile true false
          (FileOutcome.mk (some 7) (some 7) (some 7) true true true (some 7) true)).snd.takeWhile
            (fun e => !e.isRmSource)) :=
  c1_source_delete_after_verification true false
    (FileOutcome.mk (some 7) (some 7) (some 7) true true true (some 7) true)
    true (by decide)

/-- C2: for every file whose upload to the temporary destination name
succeeds, the engine queries `size(temp)` and proceeds to rename only if the
result equals the staged byte count; on any mismatch or error from the size
query, it deletes the temporary name and does not count the file as
successful. -/
theorem c2_upload_verification_gate (delete useRam : Bool)
    (env : FileOutcome) (staged b : Nat) (hr : env.retrResult = some staged)
    (hp : env.putResult = some b) :
    Ev.sizeTemp env.sizeTempResult ∈ (processFile delete useRam env).snd ∧
    (∀ rok, Ev.renameAttempt rok ∈ (processFile delete useRam env).snd →
      env.sizeTempResult = some staged) ∧
    (env.sizeTempResult ≠ some staged →
      Ev.rmTemp ∈ (processFile delete useRam env).snd ∧
      (processFile delete useRam env).fst = false) := by
  obtain ⟨retrR, putR, stR, r1, rmO, r2, sfR, rmS⟩ := env
  simp only at hr hp
  subst hr hp
  cases stR with
  | none =>
    by_cases hw : b = staged <;> simp_all [processFile]
  | some actual =>
    by_cases hva : actual = staged
    · subst hva
      by_cases hw : b = actual <;>
        cases r1 <;> cases r2 <;> cases sfR <;> cases delete <;>
          simp_all [processFile, handle_successful_rename, verify_final_file]
    · by_cases hw : b = staged <;>
        simp_all [processFile, hva]

/-- Witness for C2 at a concrete run whose upload verification errors:
the temp is removed and the file is not counted. -/
theorem c2_upload_verification_gate_witness :
    Ev.sizeTemp none ∈ (processFile false false
      (FileOutcome.mk (some 7) (some 7) none true true true (some 7) true)).snd ∧
    (∀ rok, Ev.renameAttempt rok ∈ (processFile false false
        (FileOutcome.mk (some 7) (some 7) none true true true (some 7) true)).snd →
      (none : Option Nat) = some 7) ∧
    ((none : Option Nat) ≠ some 7 →
      Ev.rmTemp ∈ (processFile false false
        (FileOutcome.mk (some 7) (some 7) none true true true (some 7) true)).snd ∧
      (processFile false false
        (FileOutcome.mk (some 7) (some 7) none true true true (some 7) true)).fst = false) :=
  c2_upload_verification_gate false false
    (FileOutcome.mk (some 7) (some 7) none true true true (some 7) true)
    7 7 rfl rfl

/-- C3: whenever the first `rename(temp, original)` fails (after a verified
upload), the engine performs `rm(original)` and then a second
`rename(temp, original)` — the three events are adjacent in the trace in
that order; if the second rename also fails, it removes the temporary name
and the file is not counted in the successful-transfer tally. -/
theorem c3_rename_fallback (delete useRam : Bool) (env : FileOutcome)
    (staged b : Nat) (hr : env.retrResult = some staged)
    (hp : env.putResult = some b) (hv : env.sizeTempResult = some staged)
    (h1 : env.rename1Ok = false) :
    (∃ pre post, (processFile delete useRam env).snd =
      pre ++ Ev.renameAttempt false :: Ev.rmOriginal env.rmOriginalOk ::
        Ev.renameRetry env.rename2Ok :: post) ∧
    (env.rename2Ok = false →
      Ev.rmTemp ∈ (processFile delete useRam env).snd ∧
      (processFile delete useRam env).fst = false) := by
  obtain ⟨retrR, putR, stR, r1, rmO, r2, sfR, rmS⟩ := env
  simp only at hr hp hv h1
  subst hr hp hv h1
  constructor
  · cases r2 with
    | false =>
      refine ⟨[Ev.storage useRam, Ev.retrOk staged, Ev.putOk b] ++
        (if b ≠ staged then [Ev.warnPutMismatch] else []) ++
        [Ev.sizeTemp (some staged)], [Ev.rmTemp], ?_⟩
      simp [processFile]
    | true =>
      refine ⟨[Ev.storage useRam, Ev.retrOk staged, Ev.putOk b] ++
        (if b ≠ staged then [Ev.warnPutMismatch] else []) ++
        [Ev.sizeTemp (some staged)],
        (handle_successful_rename
          ⟨some staged, some b, some staged, false, rmO, true, sfR, rmS⟩
          staged delete).snd, ?_⟩
      simp [processFile]
  · intro h2
    simp only at h2
    subst h2
    by_cases hw : b = staged <;> simp [processFile, hw]

/-- Witness for C3 at a concrete run where both renames fail. -/
theorem c3_rename_fallback_witness :
    (∃ pre post, (processFile false false
      (FileOutcome.mk (some 7) (some 7) (some 7) false true false (some 7) true)).snd =
      pre ++ Ev.renameAttempt false :: Ev.rmOriginal true ::
        Ev.renameRetry false :: post) ∧
    (false = false →
      Ev.rmTemp ∈ (processFile false false
        (FileOutcome.mk (some 7) (some 7) (some 7) false true false (some 7) true)).snd ∧
      (processFile false false
        (FileOutcome.mk (some 7) (some 7) (some 7) false true false (some 7) true)).fst
        = false) :=
  c3_rename_fallback false false
    (FileOutcome.mk (some 7) (some 7) (some 7) false true false (some 7) true)
    7 7 rfl rfl rfl rfl

/-- C6 counterexample: a file whose source `SIZE` reports 100 bytes while
`retr` stages only 90 bytes. The claim says a warning is logged for this
mismatch; in the code the staged byte count shadows the reported size at
`src/ftp_ops.rs:540`, no comparison against the earlier `SIZE` result is
made, and the trace contains no warning — yet processing continues and the
file even completes successfully (every later check compares against the
staged 90 bytes). -/
theorem c6_counterexample :
    check_file_should_transfer 0
      ⟨true, some 0, 0, 1000000000000, some 100⟩ = some 100 ∧
    (processFile true (use_ram none 100)
      ⟨some 90, some 90, some 90, true, true, true, some 90, true⟩).fst = true ∧
    Ev.warnPutMismatch ∉ (processFile true (use_ram none 100)
      ⟨some 90, some 90, some 90, true, true, true, some 90, true⟩).snd := by
  refine ⟨by decide, by decide, by decide⟩

/-- C6 (amended): after a successful `retr`, the engine does not compare
the staged byte count with the size previously reported by the source's
`SIZE` command (the staged count shadows it); the only mismatch warning is
the `put_file` sanity check — a warning is logged iff the byte count
reported by `put_file` differs from the staged byte count — and in either
case processing continues to upload verification. -/
theorem c6_put_mismatch_warning (delete useRam : Bool) (env : FileOutcome)
    (staged b : Nat) (hr : env.retrResult = some staged)
    (hp : env.putResult = some b) :
    (Ev.warnPutMismatch ∈ (processFile delete useRam env).snd ↔ b ≠ staged) ∧
    Ev.sizeTemp env.sizeTempResult ∈ (processFile delete useRam env).snd := by
  obtain ⟨retrR, putR, stR, r1, rmO, r2, sfR, rmS⟩ := env
  simp only at hr hp
  subst hr hp
  cases stR with
  | none =>
    by_cases hw : b = staged <;> simp_all [processFile]
  | some actual =>
    by_cases hva : actual = staged
    · subst hva
      by_cases hw : b = actual <;>
        cases r1 <;> cases r2 <;> cases sfR <;> cases delete <;>
          simp_all [processFile, handle_successful_rename, verify_final_file] <;>
          (split <;> simp)
    · by_cases hw : b = staged <;>
        simp_all [processFile, hva]

/-- Witness for C6 (amended) at a concrete run where `put_file` reports
fewer bytes than were staged: the warning is present and verification still
runs. -/
theorem c6_put_mismatch_warning_witness :
    (Ev.warnPutMismatch ∈ (processFile false false
      (FileOutcome.mk (some 9) (some 8) (some 9) true true true (some 9) true)).snd
      ↔ (8 : Nat) ≠ 9) ∧
    Ev.sizeTemp (some 9) ∈ (processFile false false
      (FileOutcome.mk (some 9) (some 8) (some 9) true true true (some 9) true)).snd :=
  c6_put_mismatch_warning false false
    (FileOutcome.mk (some 9) (some 8) (some 9) true true true (some 9) true)
    9 8 rfl rfl

/-- The credential invariant of one side exactly as claim C7 words it
(written from the claim, not from the source, for comparison with
`Config.validate`): for ftp/ftps a non-empty password is present; for sftp
exactly one of a non-empty password or a keyfile path that exists on the
local filesystem is present; and a keyfile passphrase is present only when
a keyfile is present. -/
def claimCredSide (fexists : String → Bool) (proto : Protocol)
    (pwd keyfile passphrase : Option String) : Bool :=
  (match proto with
   | Protocol.Sftp =>
     hasNonEmpty pwd != (hasNonEmpty keyfile && fexists (keyfile.getD ""))
   | _ => hasNonEmpty pwd) &&
  (!(hasNonEmpty passphrase) || hasNonEmpty keyfile)

/-- The credential invariant of one side as `Config::validate` actually
enforces it: for ftp/ftps a non-empty password; for sftp exactly one of a
non-empty password or a non-empty keyfile, the keyfile (when present) must
exist, and a passphrase requires a keyfile — the passphrase rule is checked
on sftp sides only. -/
def validatedCredSide (fexists : String → Bool) (proto : Protocol)
    (pwd keyfile passphrase : Option String) : Bool :=
  match proto with
  | Protocol.Sftp =>
    (hasNonEmpty pwd != hasNonEmpty keyfile) &&
    (!(hasNonEmpty keyfile) || fexists (keyfile.getD "")) &&
    (!(hasNonEmpty passphrase) || hasNonEmpty keyfile)
  | _ => hasNonEmpty pwd

/-- C7 counterexample: a configuration whose source side is plain ftp with
a non-empty password, no keyfile, and a stray keyfile passphrase.
`Config::validate` accepts it (the passphrase-requires-keyfile check at
`src/config.rs:185-190` sits inside the sftp branch only), yet the claim's
credential invariant is false on the source side. -/
theorem c7_counterexample :
    Config.validate (fun _ => true) (fun _ => false)
      ⟨"h1", 21, "u1", some "pw1", none, some "stray", "/p1", Protocol.Ftp,
       "h2", 21, "u2", some "pw2", none, none, "/p2", Protocol.Ftp,
       100, ".*"⟩ = .ok () ∧
    claimCredSide (fun _ => false) Protocol.Ftp
      (some "pw1") none (some "stray") = false := by
  exact ⟨by decide, by decide⟩

/-- Helper for C7: whenever one side's authentication block accepts, that
side satisfies the invariant `Config::validate` actually enforces. -/
theorem credAuthCheck_ok (fexists : String → Bool) (proto : Protocol)
    (pwd keyfile passphrase : Option String)
    (e1 e2 e3 e4 e5 : String) (u : Unit)
    (h : credAuthCheck fexists proto pwd keyfile passphrase e1 e2 e3 e4 e5
      = .ok u) :
    validatedCredSide fexists proto pwd keyfile passphrase = true := by
  cases proto <;>
    cases hP : hasNonEmpty pwd <;>
    cases hK : hasNonEmpty keyfile <;>
    cases hPs : hasNonEmpty passphrase <;>
    cases hE : fexists (keyfile.getD "") <;>
    simp_all [credAuthCheck, validatedCredSide]

/-- C7 (amended): `Config::validate` accepts a configuration only if on
each side: for ftp/ftps a non-empty password is present; for sftp exactly
one of a non-empty password or a keyfile is present, a present keyfile
exists on the local filesystem, and a keyfile passphrase is present only
when a keyfile is present — the passphrase rule being enforced for sftp
sides only. -/
theorem c7_validate_credential_invariant (rc fx : String → Bool)
    (c : Config) (h : c.validate rc fx = .ok ()) :
    validatedCredSide fx c.proto_from c.password_from c.keyfile_from
      c.keyfile_pass_from = true ∧
    validatedCredSide fx c.proto_to c.password_to c.keyfile_to
      c.keyfile_pass_to = true := by
  unfold Config.validate at h
  repeat' split at h
  any_goals exact Except.noConfusion h
  exact ⟨credAuthCheck_ok fx c.proto_from c.password_from c.keyfile_from
      c.keyfile_pass_from _ _ _ _ _ _ (by assumption),
    credAuthCheck_ok fx c.proto_to c.password_to c.keyfile_to
      c.keyfile_pass_to _ _ _ _ _ _ (by assumption)⟩

/-- Witness for C7 (amended) at a concrete accepted configuration. -/
theorem c7_validate_credential_invariant_witness :
    validatedCredSide (fun _ => true) Protocol.Ftp (some "pw1") none none
      = true ∧
    validatedCredSide (fun _ => true) Protocol.Sftp none (some "/k")
      (some "pp") = true :=
  c7_validate_credential_invariant (fun _ => true) (fun _ => true)
    ⟨"h1", 21, "u1", some "pw1", none, none, "/p1", Protocol.Ftp,
     "h2", 22, "u2", none, some "/k", some "pp", "/p2", Protocol.Sftp,
     100, ".*"⟩ (by decide)

/-- C10: every configuration returned by `parse_config` has a filename
regexp that compiles (the parser rejects any record whose pattern fails
`Regex::new` before returning), so the panic branch of the
`Regex::new(..).expect(..)` call in `transfer_files`
(`src/ftp_ops.rs:454-456`) is unreachable for such configurations. -/
theorem c10_parsed_regex_compiles (rc fx : String → Bool)
    (pl : String → Except String Config) (lines : List String)
    (configs : List Config) (c : Config)
    (hparse : parse_config rc fx pl lines = .ok configs)
    (hmem : c ∈ configs) :
    regexCompileFails rc c = false := by
  induction lines generalizing configs with
  | nil =>
    simp only [parse_config] at hparse
    cases hparse
    simp at hmem
  | cons line rest ih =>
    simp only [parse_config] at hparse
    split at hparse
    · exact ih configs hparse hmem
    · split at hparse
      · exact Except.noConfusion hparse
      · rename_i cfg hpl
        split at hparse
        · exact Except.noConfusion hparse
        · rename_i hrc
          split at hparse
          · exact Except.noConfusion hparse
          · split at hparse
            · exact Except.noConfusion hparse
            · rename_i cfgs hrest
              cases hparse
              rcases List.mem_cons.mp hmem with hceq | hmemRest
              · subst hceq
                simp only [Bool.not_eq_true] at hrc
                simp [regexCompileFails, hrc]
              · exact ih cfgs hrest hmemRest

/-- Witness for C10 at a concrete one-line configuration file. -/
theorem c10_parsed_regex_compiles_witness :
    regexCompileFails (fun _ => true)
      ⟨"h1", 21, "u1", some "pw1", none, none, "/p1", Protocol.Ftp,
       "h2", 21, "u2", some "pw2", none, none, "/p2", Protocol.Ftp,
       100, ".*"⟩ = false :=
  c10_parsed_regex_compiles (fun _ => true) (fun _ => true)
    (fun _ => .ok
      ⟨"h1", 21, "u1", some "pw1", none, none, "/p1", Protocol.Ftp,
       "h2", 21, "u2", some "pw2", none, none, "/p2", Protocol.Ftp,
       100, ".*"⟩)
    ["x"]
    [⟨"h1", 21, "u1", some "pw1", none, none, "/p1", Protocol.Ftp,
      "h2", 21, "u2", some "pw2", none, none, "/p2", Protocol.Ftp,
      100, ".*"⟩]
    ⟨"h1", 21, "u1", some "pw1", none, none, "/p1", Protocol.Ftp,
     "h2", 21, "u2", some "pw2", none, none, "/p2", Protocol.Ftp,
     100, ".*"⟩
    rfl (by simp)

end Iftpfm2
